import Mathlib

/-!
Shallow embedding of the aws_agent repository: the two capability providers
EC2Tool (src/custom_tools/aws_ec2.py) and S3Tool (src/custom_tools/aws_s3.py),
and the interactive query loop of src/src/main.py.

Modelling conventions:
- A backend SDK call that may raise is modelled as a value of type
  Except String A: the error branch carries the exception message text
  produced by str(e) in the python handlers.
- The process environment is a function from variable names to Option String,
  mirroring os.getenv.
- Python truthiness of an optional string (None and the empty string are
  falsy) is the function pyTruthy.
- Backend response dictionaries are flattened to the fields the code reads:
  a described instance is its InstanceId and State.Name, a status record is
  its InstanceState.Name, a bucket record is its Name, an object record is
  its Key. A field accessed with dict.get and a default is an Option.
- String formatting uses explicit append; the single-quote character used by
  the S3 result strings is the constant squo.
-/

/-- Single-quote character (code point 39), as it appears in the S3 format strings. -/
def squo : String := String.singleton (Char.ofNat 39)

/-- Python truthiness of an optional string: None and the empty string are falsy. -/
def pyTruthy : Option String → Bool
  | none => false
  | some s => s != ""

/-- Python str.lower, character by character. -/
def pyLower (s : String) : String := String.mk (s.data.map Char.toLower)

/-- Python str.strip: drop leading and trailing whitespace. -/
def pyStrip (s : String) : String :=
  String.mk (((s.data.dropWhile Char.isWhitespace).reverse.dropWhile Char.isWhitespace).reverse)

/-- Python expression v or d for an optional string v: v when truthy, else d. -/
def pyOrDefault (v : Option String) (d : String) : String :=
  match v with
  | some s => if s != "" then s else d
  | none => d

/-- The process environment, as read by os.getenv. -/
def Env : Type := String → Option String

/-- The MissingAWSCredentialsError exception class, defined identically in
aws_ec2.py and aws_s3.py; the payload is the exception message. -/
inductive AWSError where
  | missingAWSCredentialsError (message : String)
deriving DecidableEq

/-- The message both constructors pass to MissingAWSCredentialsError. -/
def credentials_message : String :=
  "AWS_ACCESS_KEY_ID and AWS_SECRET_ACCESS_KEY must be set as environment variables. Please set these variables and try again."

/-- An EC2Tool instance after a successful __init__: the region the boto3
client was built with, and the names passed to self.register, in order. -/
structure EC2Tool where
  region_name : String
  registered : List String
deriving DecidableEq

/-- EC2Tool.__init__ (aws_ec2.py): checks AWS_ACCESS_KEY_ID and
AWS_SECRET_ACCESS_KEY in the environment, raising MissingAWSCredentialsError
when either is missing or empty; otherwise builds the client and registers
the six methods. The python default for region_name is us-east-1. -/
def EC2Tool_init (env : Env) (region_name : String) : Except AWSError EC2Tool :=
  let aws_access_key := env "AWS_ACCESS_KEY_ID"
  let aws_secret_key := env "AWS_SECRET_ACCESS_KEY"
  if !(pyTruthy aws_access_key) || !(pyTruthy aws_secret_key) then
    Except.error (AWSError.missingAWSCredentialsError credentials_message)
  else
    Except.ok
      ⟨region_name,
       ["list_instances", "start_instance", "stop_instance",
        "check_instance_status", "terminate_instance", "create_instance"]⟩

/-- An S3Tool instance after a successful __init__. -/
structure S3Tool where
  region_name : String
  registered : List String
deriving DecidableEq

/-- S3Tool.__init__ (aws_s3.py): the same credential check as EC2Tool, then
builds the client and registers the methods; the source registers only
list_buckets, list_objects, upload_file and delete_file. -/
def S3Tool_init (env : Env) (region_name : String) : Except AWSError S3Tool :=
  let aws_access_key := env "AWS_ACCESS_KEY_ID"
  let aws_secret_key := env "AWS_SECRET_ACCESS_KEY"
  if !(pyTruthy aws_access_key) || !(pyTruthy aws_secret_key) then
    Except.error (AWSError.missingAWSCredentialsError credentials_message)
  else
    Except.ok
      ⟨region_name,
       ["list_buckets", "list_objects", "upload_file", "delete_file"]⟩

/-- One instance in a describe_instances reservation: the two fields the code
reads, InstanceId and State.Name. -/
structure EC2Instance where
  instanceId : String
  state : String
deriving DecidableEq

/-- The line EC2Tool.list_instances appends for one instance. -/
def formatInstanceLine (i : EC2Instance) : String :=
  "Instance ID: " ++ i.instanceId ++ ", State: " ++ i.state

/-- EC2Tool.list_instances: the response is the Reservations list, each a
list of instances; the loop flattens reservations in order. -/
def list_instances (response : Except String (List (List EC2Instance))) : String :=
  match response with
  | Except.error e => "Error listing instances: " ++ e
  | Except.ok reservations =>
      let instances := (reservations.map (fun r => r.map formatInstanceLine)).flatten
      if instances.isEmpty then "No EC2 instances found."
      else String.intercalate "\n" instances

/-- EC2Tool.start_instance: the call argument is the start_instances backend call. -/
def start_instance (instance_id : String) (call : Except String Unit) : String :=
  match call with
  | Except.ok _ => "Instance " ++ instance_id ++ " is starting."
  | Except.error e => "Error starting instance " ++ instance_id ++ ": " ++ e

/-- EC2Tool.stop_instance. -/
def stop_instance (instance_id : String) (call : Except String Unit) : String :=
  match call with
  | Except.ok _ => "Instance " ++ instance_id ++ " is stopping."
  | Except.error e => "Error stopping instance " ++ instance_id ++ ": " ++ e

/-- EC2Tool.check_instance_status: the response is the InstanceStatuses list,
each record represented by its InstanceState.Name, the only field read. -/
def check_instance_status (instance_id : String) (response : Except String (List String)) : String :=
  match response with
  | Except.error e => "Error checking status of instance " ++ instance_id ++ ": " ++ e
  | Except.ok instanceStatuses =>
      match instanceStatuses with
      | [] => "Instance " ++ instance_id ++ " is stopped or does not exist."
      | state :: _ => "Instance " ++ instance_id ++ " is " ++ state ++ "."

/-- EC2Tool.terminate_instance. -/
def terminate_instance (instance_id : String) (call : Except String Unit) : String :=
  match call with
  | Except.ok _ => "Instance " ++ instance_id ++ " is terminating."
  | Except.error e => "Error terminating instance " ++ instance_id ++ ": " ++ e

/-- The launch_params dictionary EC2Tool.create_instance passes to
run_instances: KeyName and SecurityGroups are present only when added. -/
structure LaunchParams where
  ImageId : String
  InstanceType : String
  MinCount : Int
  MaxCount : Int
  KeyName : Option String
  SecurityGroups : Option (List String)
deriving DecidableEq

/-- The launch_params construction inside EC2Tool.create_instance: the
KeyName and SecurityGroups entries are added only when the corresponding
argument is truthy. -/
def buildLaunchParams (image_id instance_type : String)
    (key_name security_group : Option String) (min_count max_count : Int) : LaunchParams :=
  ⟨image_id, instance_type, min_count, max_count,
   if pyTruthy key_name then key_name else none,
   if pyTruthy security_group then security_group.map (fun g => [g]) else none⟩

/-- The python defaults of the min_count and max_count parameters of
EC2Tool.create_instance. -/
def create_instance_default_min_count : Int := 1

/-- The python default of the max_count parameter of EC2Tool.create_instance. -/
def create_instance_default_max_count : Int := 1

/-- EC2Tool.create_instance: run_instances is the backend call, given the
constructed launch parameters; its success value is the list of InstanceId
fields of the launched instances, the only field read from the response. -/
def create_instance (image_id instance_type : String)
    (key_name security_group : Option String) (min_count max_count : Int)
    (run_instances : LaunchParams → Except String (List String)) : String :=
  let launch_params :=
    buildLaunchParams image_id instance_type key_name security_group min_count max_count
  match run_instances launch_params with
  | Except.ok instance_ids =>
      "Instance(s) created successfully. Instance ID(s): " ++ String.intercalate ", " instance_ids
  | Except.error e => "Error creating instance: " ++ e

/-- S3Tool.list_buckets: the success value is the Buckets field, an Option
because the code reads it with response.get with default empty; each bucket
record is represented by its Name field. -/
def list_buckets (response : Except String (Option (List String))) : String :=
  match response with
  | Except.error e => "Error listing buckets: " ++ e
  | Except.ok bucketsField =>
      let buckets := bucketsField.getD []
      "Available S3 buckets: " ++ String.intercalate ", " buckets

/-- S3Tool.list_objects: the success value is the Contents field, an Option
read with response.get with default empty; each record is its Key field. -/
def list_objects (bucket_name : String) (response : Except String (Option (List String))) : String :=
  match response with
  | Except.error e =>
      "Error listing objects in bucket " ++ squo ++ bucket_name ++ squo ++ ": " ++ e
  | Except.ok contentsField =>
      let objects := contentsField.getD []
      "Objects in bucket " ++ squo ++ bucket_name ++ squo ++ ": " ++ String.intercalate ", " objects

/-- S3Tool.upload_file: call is the upload_file backend call. -/
def upload_file (file_path bucket_name object_name : String) (call : Except String Unit) : String :=
  match call with
  | Except.ok _ =>
      "File " ++ squo ++ file_path ++ squo ++ " successfully uploaded to bucket " ++ squo
        ++ bucket_name ++ squo ++ " as " ++ squo ++ object_name ++ squo
  | Except.error e => "Error uploading file: " ++ e

/-- S3Tool.delete_file: call is the delete_object backend call. -/
def delete_file (bucket_name object_name : String) (call : Except String Unit) : String :=
  match call with
  | Except.ok _ =>
      "File " ++ squo ++ object_name ++ squo ++ " successfully deleted from bucket " ++ squo
        ++ bucket_name ++ squo
  | Except.error e => "Error deleting file: " ++ e

/-- The create_bucket_params dictionary S3Tool.create_bucket passes to the
backend: the Bucket entry, and the CreateBucketConfiguration entry carrying
a LocationConstraint when present. -/
structure CreateBucketParams where
  Bucket : String
  LocationConstraint : Option String
deriving DecidableEq

/-- The create_bucket_params construction inside S3Tool.create_bucket: the
region-constraint entry is added only when region_name is truthy and differs
from us-east-1. The python default of region_name is None. -/
def buildCreateBucketParams (bucket_name : String) (region_name : Option String) : CreateBucketParams :=
  ⟨bucket_name,
   if pyTruthy region_name && region_name != some "us-east-1" then region_name else none⟩

/-- S3Tool.create_bucket: backend_call is the create_bucket backend call,
given the constructed parameters. The reported region is the python
expression region_name or us-east-1. -/
def create_bucket (bucket_name : String) (region_name : Option String)
    (backend_call : CreateBucketParams → Except String Unit) : String :=
  let create_bucket_params := buildCreateBucketParams bucket_name region_name
  match backend_call create_bucket_params with
  | Except.ok _ =>
      "Bucket " ++ squo ++ bucket_name ++ squo ++ " successfully created in region " ++ squo
        ++ pyOrDefault region_name "us-east-1" ++ squo
  | Except.error e => "Error creating bucket " ++ squo ++ bucket_name ++ squo ++ ": " ++ e

/-- S3Tool.delete_bucket: call is the delete_bucket backend call. -/
def delete_bucket (bucket_name : String) (call : Except String Unit) : String :=
  match call with
  | Except.ok _ => "Bucket " ++ squo ++ bucket_name ++ squo ++ " successfully deleted"
  | Except.error e => "Error deleting bucket " ++ squo ++ bucket_name ++ squo ++ ": " ++ e

/-- Outcome of one iteration of the interactive loop in main.py: either the
session ends printing the farewell, or one result string is printed. -/
inductive LoopStep where
  | exitSession (farewell : String)
  | printed (result : String)
deriving DecidableEq

/-- The farewell printed by the main loop, exactly as in the source. -/
def farewell_message : String := "Exiting the aws helper agenet. Goodbye!"

/-- process_query of main.py: runs the coordinator agent on the query and
returns the content of the response; the agent run is an external
collaborator, passed as a function. -/
def process_query (aws_agent_run : String → String) (user_query : String) : String :=
  aws_agent_run user_query

/-- One iteration of the __main__ loop of main.py: strip the raw input line,
compare its lowercasing against quit, and otherwise print the result of
process_query on the stripped line. -/
def main_loop_step (aws_agent_run : String → String) (input_line : String) : LoopStep :=
  let user_query := pyStrip input_line
  if pyLower user_query == "quit" then
    LoopStep.exitSession farewell_message
  else
    LoopStep.printed (process_query aws_agent_run user_query)

/-- An environment with both credential variables set, used for concrete
evaluations. -/
def env_with_creds : Env := fun _ => some "present"

/- String predicates used to state the claims: prefix and substring on the
character data of a string. -/

/-- The string s starts with the string p. -/
def strStartsWith (p s : String) : Prop := p.data <+: s.data

/-- The string m occurs in the string s as a contiguous substring. -/
def strContainsSub (m s : String) : Prop := m.data <:+: s.data

instance instDecidableStrStartsWith (p s : String) : Decidable (strStartsWith p s) :=
  inferInstanceAs (Decidable (p.data <+: s.data))

instance instDecidableStrContainsSub (m s : String) : Decidable (strContainsSub m s) :=
  inferInstanceAs (Decidable (m.data <:+: s.data))

/- Helper lemmas about the string predicates. -/

/-- A prefix of a string is a prefix of any right extension of it. -/
theorem strStartsWith_append_left (p a b : String) (h : strStartsWith p a) :
    strStartsWith p (a ++ b) := by
  unfold strStartsWith at *
  rw [String.data_append]
  exact h.trans (List.prefix_append a.data b.data)

/-- A string contains its own right factor. -/
theorem strContainsSub_append_right (m a : String) : strContainsSub m (a ++ m) := by
  unfold strContainsSub
  rw [String.data_append]
  exact (List.suffix_append a.data m.data).isInfix

/-- A string contains its middle factor. -/
theorem strContainsSub_mid (a m b : String) : strContainsSub m (a ++ m ++ b) := by
  unfold strContainsSub
  rw [String.data_append, String.data_append]
  exact List.infix_append a.data m.data b.data

/-- A substring of a string is a substring of any right extension of it. -/
theorem strContainsSub_extend (m a b : String) (h : strContainsSub m a) :
    strContainsSub m (a ++ b) := by
  unfold strContainsSub at *
  rw [String.data_append]
  exact h.trans (List.prefix_append a.data b.data).isInfix

/-- A string that starts with the word Instance does not start with the word Error. -/
theorem instance_not_error (s : String) : ¬ strStartsWith "Error" ("Instance " ++ s) := by
  intro h
  unfold strStartsWith at h
  rw [String.data_append, List.prefix_iff_eq_take,
      List.take_append_of_le_length (by decide)] at h
  exact absurd h (by decide)

/-- An error result of the form of every handler, a prefix starting with the
word Error followed by the cause text, begins with Error and contains the cause. -/
theorem err_shape (a e : String) (h : strStartsWith "Error" a) :
    strStartsWith "Error" (a ++ e) ∧ strContainsSub e (a ++ e) :=
  ⟨strStartsWith_append_left "Error" a e h, strContainsSub_append_right e a⟩

/-- Claim C1: for every operation of both providers, a backend call that
raises makes the operation return a string that begins with Error and
contains the original exception message; the operation itself is a total
function, so it never raises. -/
theorem spec_C1_error_to_string :
    (∀ e, strStartsWith "Error" (list_instances (Except.error e)) ∧
       strContainsSub e (list_instances (Except.error e))) ∧
    (∀ instance_id e, strStartsWith "Error" (start_instance instance_id (Except.error e)) ∧
       strContainsSub e (start_instance instance_id (Except.error e))) ∧
    (∀ instance_id e, strStartsWith "Error" (stop_instance instance_id (Except.error e)) ∧
       strContainsSub e (stop_instance instance_id (Except.error e))) ∧
    (∀ instance_id e, strStartsWith "Error" (check_instance_status instance_id (Except.error e)) ∧
       strContainsSub e (check_instance_status instance_id (Except.error e))) ∧
    (∀ instance_id e, strStartsWith "Error" (terminate_instance instance_id (Except.error e)) ∧
       strContainsSub e (terminate_instance instance_id (Except.error e))) ∧
    (∀ image_id instance_type key_name security_group min_count max_count run_instances e,
       run_instances (buildLaunchParams image_id instance_type key_name security_group
           min_count max_count) = Except.error e →
       strStartsWith "Error" (create_instance image_id instance_type key_name security_group
           min_count max_count run_instances) ∧
       strContainsSub e (create_instance image_id instance_type key_name security_group
           min_count max_count run_instances)) ∧
    (∀ e, strStartsWith "Error" (list_buckets (Except.error e)) ∧
       strContainsSub e (list_buckets (Except.error e))) ∧
    (∀ bucket_name e, strStartsWith "Error" (list_objects bucket_name (Except.error e)) ∧
       strContainsSub e (list_objects bucket_name (Except.error e))) ∧
    (∀ file_path bucket_name object_name e,
       strStartsWith "Error" (upload_file file_path bucket_name object_name (Except.error e)) ∧
       strContainsSub e (upload_file file_path bucket_name object_name (Except.error e))) ∧
    (∀ bucket_name object_name e,
       strStartsWith "Error" (delete_file bucket_name object_name (Except.error e)) ∧
       strContainsSub e (delete_file bucket_name object_name (Except.error e))) ∧
    (∀ bucket_name region_name backend_call e,
       backend_call (buildCreateBucketParams bucket_name region_name) = Except.error e →
       strStartsWith "Error" (create_bucket bucket_name region_name backend_call) ∧
       strContainsSub e (create_bucket bucket_name region_name backend_call)) ∧
    (∀ bucket_name e, strStartsWith "Error" (delete_bucket bucket_name (Except.error e)) ∧
       strContainsSub e (delete_bucket bucket_name (Except.error e))) := by
  refine ⟨?_, ?_, ?_, ?_, ?_, ?_, ?_, ?_, ?_, ?_, ?_, ?_⟩
  · intro e
    exact err_shape "Error listing instances: " e (by decide)
  · intro instance_id e
    exact err_shape ("Error starting instance " ++ instance_id ++ ": ") e
      (strStartsWith_append_left _ _ _ (strStartsWith_append_left _ _ _ (by decide)))
  · intro instance_id e
    exact err_shape ("Error stopping instance " ++ instance_id ++ ": ") e
      (strStartsWith_append_left _ _ _ (strStartsWith_append_left _ _ _ (by decide)))
  · intro instance_id e
    exact err_shape ("Error checking status of instance " ++ instance_id ++ ": ") e
      (strStartsWith_append_left _ _ _ (strStartsWith_append_left _ _ _ (by decide)))
  · intro instance_id e
    exact err_shape ("Error terminating instance " ++ instance_id ++ ": ") e
      (strStartsWith_append_left _ _ _ (strStartsWith_append_left _ _ _ (by decide)))
  · intro image_id instance_type key_name security_group min_count max_count run_instances e h
    have hc : create_instance image_id instance_type key_name security_group
        min_count max_count run_instances = "Error creating instance: " ++ e := by
      simp only [create_instance, h]
    rw [hc]
    exact err_shape "Error creating instance: " e (by decide)
  · intro e
    exact err_shape "Error listing buckets: " e (by decide)
  · intro bucket_name e
    exact err_shape ("Error listing objects in bucket " ++ squo ++ bucket_name ++ squo ++ ": ") e
      (strStartsWith_append_left _ _ _ (strStartsWith_append_left _ _ _
        (strStartsWith_append_left _ _ _ (strStartsWith_append_left _ _ _ (by decide)))))
  · intro file_path bucket_name object_name e
    exact err_shape "Error uploading file: " e (by decide)
  · intro bucket_name object_name e
    exact err_shape "Error deleting file: " e (by decide)
  · intro bucket_name region_name backend_call e h
    have hc : create_bucket bucket_name region_name backend_call =
        ("Error creating bucket " ++ squo ++ bucket_name ++ squo ++ ": ") ++ e := by
      simp only [create_bucket, h]
    rw [hc]
    exact err_shape ("Error creating bucket " ++ squo ++ bucket_name ++ squo ++ ": ") e
      (strStartsWith_append_left _ _ _ (strStartsWith_append_left _ _ _
        (strStartsWith_append_left _ _ _ (by decide))))
  · intro bucket_name e
    exact err_shape ("Error deleting bucket " ++ squo ++ bucket_name ++ squo ++ ": ") e
      (strStartsWith_append_left _ _ _ (strStartsWith_append_left _ _ _
        (strStartsWith_append_left _ _ _ (by decide))))

/-- Witness for claim C1 at concrete inputs, discharging the backend-call
hypotheses of the create_instance and create_bucket conjuncts. -/
theorem spec_C1_error_to_string_witness :
    (strStartsWith "Error" (create_instance "ami-0" "t2.micro" none none 1 1
        (fun _ => Except.error "boom")) ∧
     strContainsSub "boom" (create_instance "ami-0" "t2.micro" none none 1 1
        (fun _ => Except.error "boom"))) ∧
    (strStartsWith "Error" (create_bucket "b1" none (fun _ => Except.error "denied")) ∧
     strContainsSub "denied" (create_bucket "b1" none (fun _ => Except.error "denied"))) := by
  constructor
  · exact spec_C1_error_to_string.2.2.2.2.2.1 "ami-0" "t2.micro" none none 1 1
      (fun _ => Except.error "boom") "boom" rfl
  · exact spec_C1_error_to_string.2.2.2.2.2.2.2.2.2.2.1 "b1" none
      (fun _ => Except.error "denied") "denied" rfl

/-- Claim C2: for every environment in which the access key identifier or
the secret key is absent or empty, constructing either provider fails with
the MissingAWSCredentialsError carrying the message naming both variables,
and no backend client or tool instance is constructed; both constructors
perform the check themselves. -/
theorem spec_C2_missing_credentials (env : Env) (region : String)
    (h : pyTruthy (env "AWS_ACCESS_KEY_ID") = false ∨
         pyTruthy (env "AWS_SECRET_ACCESS_KEY") = false) :
    EC2Tool_init env region =
      Except.error (AWSError.missingAWSCredentialsError credentials_message) ∧
    S3Tool_init env region =
      Except.error (AWSError.missingAWSCredentialsError credentials_message) ∧
    strContainsSub "AWS_ACCESS_KEY_ID" credentials_message ∧
    strContainsSub "AWS_SECRET_ACCESS_KEY" credentials_message ∧
    (∀ t, EC2Tool_init env region ≠ Except.ok t) ∧
    (∀ t, S3Tool_init env region ≠ Except.ok t) := by
  have hbranch : (!(pyTruthy (env "AWS_ACCESS_KEY_ID"))
      || !(pyTruthy (env "AWS_SECRET_ACCESS_KEY"))) = true := by
    rcases h with h | h <;> simp [h]
  have h1 : EC2Tool_init env region =
      Except.error (AWSError.missingAWSCredentialsError credentials_message) := by
    simp only [EC2Tool_init, hbranch, if_true]
  have h2 : S3Tool_init env region =
      Except.error (AWSError.missingAWSCredentialsError credentials_message) := by
    simp only [S3Tool_init, hbranch, if_true]
  refine ⟨h1, h2, by decide, by decide, ?_, ?_⟩
  · intro t hcontra
    rw [h1] at hcontra
    exact Except.noConfusion hcontra
  · intro t hcontra
    rw [h2] at hcontra
    exact Except.noConfusion hcontra

/-- Witness for claim C2: with the access key variable unset and the secret
key present, EC2Tool construction fails with the credentials error. -/
theorem spec_C2_missing_credentials_witness :
    EC2Tool_init (fun n => if n == "AWS_SECRET_ACCESS_KEY" then some "sk" else none)
        "us-east-1" =
      Except.error (AWSError.missingAWSCredentialsError credentials_message) :=
  (spec_C2_missing_credentials
    (fun n => if n == "AWS_SECRET_ACCESS_KEY" then some "sk" else none)
    "us-east-1" (Or.inl rfl)).1

/-- Claim C3 evaluated on the code: with valid credentials, S3Tool
construction registers exactly list_buckets, list_objects, upload_file and
delete_file; create_bucket and delete_bucket, although defined and named in
the instruction text of main.py, are not in the registered set. -/
theorem spec_C3_registered_operations :
    S3Tool_init env_with_creds "us-east-1" =
      Except.ok ⟨"us-east-1", ["list_buckets", "list_objects", "upload_file", "delete_file"]⟩ ∧
    "create_bucket" ∉ ["list_buckets", "list_objects", "upload_file", "delete_file"] ∧
    "delete_bucket" ∉ ["list_buckets", "list_objects", "upload_file", "delete_file"] :=
  ⟨rfl, by decide, by decide⟩

/-- Claim C4 evaluated on the code: create_bucket called with the region
argument omitted (python default None) on a provider configured with region
eu-west-1 sends a request without the region-constraint entry and reports
the bucket as created in us-east-1, ignoring the configured region; with an
explicit non-default region the constraint is attached. -/
theorem spec_C4_region_default_ignored :
    (EC2Tool_init env_with_creds "eu-west-1").isOk = true ∧
    (S3Tool_init env_with_creds "eu-west-1").isOk = true ∧
    buildCreateBucketParams "my-bucket" none = ⟨"my-bucket", none⟩ ∧
    create_bucket "my-bucket" none (fun _ => Except.ok ()) =
      "Bucket " ++ squo ++ "my-bucket" ++ squo ++ " successfully created in region "
        ++ squo ++ "us-east-1" ++ squo ∧
    buildCreateBucketParams "my-bucket" (some "eu-west-1") =
      ⟨"my-bucket", some "eu-west-1"⟩ ∧
    buildCreateBucketParams "my-bucket" (some "us-east-1") = ⟨"my-bucket", none⟩ :=
  ⟨rfl, rfl, rfl, rfl, by decide, rfl⟩

/-- Claim C5: list_instances returns the exact no-instances sentinel when
the flattened reservations are empty, and otherwise the newline join of one
formatted line per instance, in backend order. -/
theorem spec_C5_list_instances (reservations : List (List EC2Instance)) :
    (reservations.flatten = [] →
       list_instances (Except.ok reservations) = "No EC2 instances found.") ∧
    (reservations.flatten ≠ [] →
       list_instances (Except.ok reservations) =
         String.intercalate "\n" (reservations.flatten.map formatInstanceLine)) := by
  have hmap : (reservations.map (fun r => r.map formatInstanceLine)).flatten =
      reservations.flatten.map formatInstanceLine := by
    simp [List.map_flatten]
  constructor
  · intro h
    simp [list_instances, hmap, h]
  · intro h
    have hne : (reservations.flatten.map formatInstanceLine).isEmpty = false := by
      simpa [List.isEmpty_iff] using h
    simp only [list_instances, hmap, hne, Bool.false_eq_true, if_false]

/-- Witness for claim C5: the sentinel on a response with two empty
reservations, and the joined lines on a response with two instances spread
over distinct reservations. -/
theorem spec_C5_list_instances_witness :
    list_instances (Except.ok ([[], []] : List (List EC2Instance))) =
      "No EC2 instances found." ∧
    list_instances (Except.ok [[⟨"i-1", "running"⟩], [], [⟨"i-2", "stopped"⟩]]) =
      "Instance ID: i-1, State: running\nInstance ID: i-2, State: stopped" := by
  constructor
  · exact (spec_C5_list_instances [[], []]).1 rfl
  · have h := (spec_C5_list_instances [[⟨"i-1", "running"⟩], [], [⟨"i-2", "stopped"⟩]]).2
      (by decide)
    rw [h]
    decide

/-- Claim C6: check_instance_status on an empty status record list returns
the stopped-or-does-not-exist sentinel naming the instance id; the sentinel
starts with the word Instance and not with the word Error; on a nonempty
record list it reports the first record lifecycle state. -/
theorem spec_C6_status_sentinel (instance_id : String) :
    (check_instance_status instance_id (Except.ok []) =
       "Instance " ++ instance_id ++ " is stopped or does not exist.") ∧
    strContainsSub instance_id (check_instance_status instance_id (Except.ok [])) ∧
    (¬ strStartsWith "Error" (check_instance_status instance_id (Except.ok []))) ∧
    (∀ state rest, check_instance_status instance_id (Except.ok (state :: rest)) =
       "Instance " ++ instance_id ++ " is " ++ state ++ ".") ∧
    (∀ state rest,
       strContainsSub state (check_instance_status instance_id (Except.ok (state :: rest)))) := by
  refine ⟨rfl, ?_, ?_, fun state rest => rfl, ?_⟩
  · show strContainsSub instance_id
      ("Instance " ++ instance_id ++ " is stopped or does not exist.")
    exact strContainsSub_mid "Instance " instance_id " is stopped or does not exist."
  · show ¬ strStartsWith "Error"
      ("Instance " ++ (instance_id ++ " is stopped or does not exist."))
    exact instance_not_error (instance_id ++ " is stopped or does not exist.")
  · intro state rest
    show strContainsSub state ("Instance " ++ instance_id ++ " is " ++ state ++ ".")
    exact strContainsSub_mid ("Instance " ++ instance_id ++ " is ") state "."

/-- Claim C7: the success strings of upload_file, delete_file and
delete_bucket contain the bucket name, and for the first two also the object
key, verbatim as substrings. -/
theorem spec_C7_verbatim_names (file_path bucket_name object_name : String) :
    strContainsSub bucket_name (upload_file file_path bucket_name object_name (Except.ok ())) ∧
    strContainsSub object_name (upload_file file_path bucket_name object_name (Except.ok ())) ∧
    strContainsSub bucket_name (delete_file bucket_name object_name (Except.ok ())) ∧
    strContainsSub object_name (delete_file bucket_name object_name (Except.ok ())) ∧
    strContainsSub bucket_name (delete_bucket bucket_name (Except.ok ())) := by
  have hup : upload_file file_path bucket_name object_name (Except.ok ()) =
      ("File " ++ squo ++ file_path ++ squo ++ " successfully uploaded to bucket " ++ squo)
        ++ bucket_name ++ (squo ++ " as " ++ squo ++ object_name ++ squo) := by
    simp [upload_file, String.append_assoc]
  have hup2 : upload_file file_path bucket_name object_name (Except.ok ()) =
      ("File " ++ squo ++ file_path ++ squo ++ " successfully uploaded to bucket " ++ squo
        ++ bucket_name ++ squo ++ " as " ++ squo) ++ object_name ++ squo := by
    simp [upload_file, String.append_assoc]
  have hdf : delete_file bucket_name object_name (Except.ok ()) =
      ("File " ++ squo ++ object_name ++ squo ++ " successfully deleted from bucket " ++ squo)
        ++ bucket_name ++ squo := by
    simp [delete_file, String.append_assoc]
  have hdf2 : delete_file bucket_name object_name (Except.ok ()) =
      ("File " ++ squo) ++ object_name
        ++ (squo ++ " successfully deleted from bucket " ++ squo ++ bucket_name ++ squo) := by
    simp [delete_file, String.append_assoc]
  have hdb : delete_bucket bucket_name (Except.ok ()) =
      ("Bucket " ++ squo) ++ bucket_name ++ (squo ++ " successfully deleted") := by
    simp [delete_bucket, String.append_assoc]
  refine ⟨?_, ?_, ?_, ?_, ?_⟩
  · rw [hup]; exact strContainsSub_mid _ _ _
  · rw [hup2]
    exact strContainsSub_extend _ _ _ (strContainsSub_append_right _ _)
  · rw [hdf]
    exact strContainsSub_extend _ _ _ (strContainsSub_append_right _ _)
  · rw [hdf2]; exact strContainsSub_mid _ _ _
  · rw [hdb]; exact strContainsSub_mid _ _ _

/-- Counterexample to claim C8 as stated: the loop strips the raw line
before both the quit test and the forwarding, so the line with surrounding
blanks around hello is forwarded stripped rather than unmodified, and a
line whose stripped form is quit ends the session although the raw line is
not the literal quit in any casing. -/
theorem spec_C8_counterexample :
    main_loop_step (fun q => "R:" ++ q) "  hello  " = LoopStep.printed "R:hello" ∧
    "R:hello" ≠ "R:  hello  " ∧
    main_loop_step (fun q => "R:" ++ q) " quit " = LoopStep.exitSession farewell_message := by
  refine ⟨by decide, by decide, by decide⟩

/-- Claim C8 as amended: each input line is first stripped of leading and
trailing whitespace; when the stripped line lowercases to quit the session
ends with the farewell message and nothing is forwarded, and otherwise the
stripped line is forwarded to the coordinator and the result printed
verbatim. -/
theorem spec_C8_query_loop (aws_agent_run : String → String) (input_line : String) :
    (pyLower (pyStrip input_line) = "quit" →
       main_loop_step aws_agent_run input_line = LoopStep.exitSession farewell_message) ∧
    (pyLower (pyStrip input_line) ≠ "quit" →
       main_loop_step aws_agent_run input_line =
         LoopStep.printed (aws_agent_run (pyStrip input_line))) := by
  constructor
  · intro h
    simp [main_loop_step, h]
  · intro h
    simp [main_loop_step, process_query, h]

/-- Witness for the amended claim C8: a cased quit line ends the session,
and an ordinary query line is forwarded and its result printed. -/
theorem spec_C8_query_loop_witness :
    main_loop_step (fun q => q) "QuIt" = LoopStep.exitSession farewell_message ∧
    main_loop_step (fun q => q) "list buckets" = LoopStep.printed "list buckets" := by
  constructor
  · exact (spec_C8_query_loop (fun q => q) "QuIt").1 (by decide)
  · have h := (spec_C8_query_loop (fun q => q) "list buckets").2 (by decide)
    rw [h]
    decide

/-- Claim C9: in create_instance an empty optional key pair name or security
group is treated exactly as an absent one, the corresponding launch request
entry exists if and only if the argument is a nonempty string, the entry
carries the argument value when present, and min and max count are always
forwarded, with python defaults equal to 1. -/
theorem spec_C9_optional_launch_params (image_id instance_type : String)
    (key_name security_group : Option String) (min_count max_count : Int) :
    (buildLaunchParams image_id instance_type (some "") security_group min_count max_count =
       buildLaunchParams image_id instance_type none security_group min_count max_count) ∧
    (buildLaunchParams image_id instance_type key_name (some "") min_count max_count =
       buildLaunchParams image_id instance_type key_name none min_count max_count) ∧
    ((buildLaunchParams image_id instance_type key_name security_group
        min_count max_count).KeyName ≠ none ↔ ∃ s, key_name = some s ∧ s ≠ "") ∧
    ((buildLaunchParams image_id instance_type key_name security_group
        min_count max_count).SecurityGroups ≠ none ↔ ∃ s, security_group = some s ∧ s ≠ "") ∧
    (∀ s, s ≠ "" → (buildLaunchParams image_id instance_type (some s) security_group
        min_count max_count).KeyName = some s) ∧
    (∀ s, s ≠ "" → (buildLaunchParams image_id instance_type key_name (some s)
        min_count max_count).SecurityGroups = some [s]) ∧
    ((buildLaunchParams image_id instance_type key_name security_group
        min_count max_count).MinCount = min_count) ∧
    ((buildLaunchParams image_id instance_type key_name security_group
        min_count max_count).MaxCount = max_count) ∧
    (∀ run_instances, create_instance image_id instance_type (some "") security_group
        min_count max_count run_instances =
      create_instance image_id instance_type none security_group
        min_count max_count run_instances) ∧
    (∀ run_instances, create_instance image_id instance_type key_name (some "")
        min_count max_count run_instances =
      create_instance image_id instance_type key_name none
        min_count max_count run_instances) ∧
    create_instance_default_min_count = 1 ∧
    create_instance_default_max_count = 1 := by
  refine ⟨rfl, rfl, ?_, ?_, ?_, ?_, rfl, rfl, fun r => rfl, fun r => rfl, rfl, rfl⟩
  · cases key_name with
    | none => simp [buildLaunchParams, pyTruthy]
    | some s =>
        by_cases hs : s = "" <;> simp [buildLaunchParams, pyTruthy, hs]
  · cases security_group with
    | none => simp [buildLaunchParams, pyTruthy]
    | some s =>
        by_cases hs : s = "" <;> simp [buildLaunchParams, pyTruthy, hs]
  · intro s hs
    simp [buildLaunchParams, pyTruthy, hs]
  · intro s hs
    simp [buildLaunchParams, pyTruthy, hs]

/-- Witness for claim C9: a nonempty key pair name and a nonempty security
group appear in the launch request entries. -/
theorem spec_C9_optional_launch_params_witness :
    (buildLaunchParams "ami-0" "t2.micro" (some "kp") none 1 2).KeyName = some "kp" ∧
    (buildLaunchParams "ami-0" "t2.micro" none (some "grp") 1 2).SecurityGroups =
      some ["grp"] := by
  constructor
  · exact (spec_C9_optional_launch_params "ami-0" "t2.micro" none none 1 2).2.2.2.2.1
      "kp" (by decide)
  · exact (spec_C9_optional_launch_params "ami-0" "t2.micro" none none 1 2).2.2.2.2.2.1
      "grp" (by decide)

/-- Claim C10: list_buckets on zero buckets returns exactly the listing
prefix followed by nothing, list_objects on an empty bucket returns exactly
its prefix naming the bucket followed by nothing, and a missing Buckets or
Contents field is treated as the empty list. -/
theorem spec_C10_empty_listings (bucket_name : String) :
    list_buckets (Except.ok none) = "Available S3 buckets: " ∧
    list_buckets (Except.ok (some [])) = "Available S3 buckets: " ∧
    list_objects bucket_name (Except.ok none) =
      "Objects in bucket " ++ squo ++ bucket_name ++ squo ++ ": " ∧
    list_objects bucket_name (Except.ok (some [])) =
      "Objects in bucket " ++ squo ++ bucket_name ++ squo ++ ": " ∧
    list_buckets (Except.ok none) = list_buckets (Except.ok (some [])) ∧
    list_objects bucket_name (Except.ok none) =
      list_objects bucket_name (Except.ok (some [])) :=
  ⟨by decide, by decide, String.append_empty _, String.append_empty _, rfl, rfl⟩
